import Mathlib

/-!
# Namespaced controller resources of the containerized-data-importer operator

A shallow embedding of
`vendor/kubevirt.io/containerized-data-importer/pkg/operator/resources/namespaced/controller.go`.

The Kubernetes API types are records with the fields this file reads or writes
(and some neighbouring ones, so that "every other field" has a meaning).  A Go
pointer to a struct that may be absent is an `Option`, a Go slice is a `List`,
and a Go `map[string]string` is an `Option StringMap`, `none` being the nil map.
`fmt.Sprintf` with only `%s` verbs on string arguments is string concatenation.
The pointers the functions receive (`*FactoryArgs`) or get back from a helper
(`*appsv1.Deployment`) are taken to be non-nil, so no function here can fail.

The helpers of package `utils`, and the constants of packages `common`,
`controller` and of the sibling files of package `namespaced`, are not part of
the file: they are the fields of `Externals`, and every definition takes them
as its first argument.
-/

set_option linter.dupNamespace false

namespace Namespaced

/-! ## Data model -/

/-- A Go `map[string]string` literal, as its key/value pairs in written order.
Go rejects a map literal with a repeated constant key. -/
abbrev StringMap := List (String × String)

/-- The value stored under key `k`, if any. -/
def StringMap.get? (m : StringMap) (k : String) : Option String :=
  m.lookup k

/-- The number of distinct keys, which is what Go's `len` gives for a map. -/
def StringMap.size (m : StringMap) : Nat :=
  (m.map Prod.fst).dedup.length

/-- Every pair of `a` occurs in `b` with the same value. -/
def StringMap.SubMap (a b : StringMap) : Prop :=
  ∀ k v, a.get? k = some v → b.get? k = some v

/-- Equality of maps as sets of key/value pairs. -/
def StringMap.Equiv (a b : StringMap) : Prop :=
  ∀ k, a.get? k = b.get? k

/-- The type `metav1.TypeMeta`. -/
structure TypeMeta where
  Kind : String := ""
  APIVersion : String := ""
deriving DecidableEq

/-- The type `metav1.ObjectMeta`. -/
structure ObjectMeta where
  Name : String := ""
  GenerateName : String := ""
  Namespace : String := ""
  Labels : Option StringMap := none
  Annotations : Option StringMap := none
deriving DecidableEq

/-- The type `intstr.Type`. -/
inductive IntstrType where
  | Int
  | String
deriving DecidableEq

/-- The type `intstr.IntOrString`. -/
structure IntOrString where
  Type_ : IntstrType := IntstrType.Int
  IntVal : Int := 0
  StrVal : String := ""
deriving DecidableEq

/-- The type `corev1.EnvVar`. -/
structure EnvVar where
  Name : String := ""
  Value : String := ""
deriving DecidableEq

/-- The type `corev1.ExecAction`. -/
structure ExecAction where
  Command : List String := []
deriving DecidableEq

/-- The type `corev1.HTTPGetAction`. -/
structure HTTPGetAction where
  Path : String := ""
  Port : IntOrString := {}
  Host : String := ""
  Scheme : String := ""
deriving DecidableEq

/-- The type `corev1.TCPSocketAction`. -/
structure TCPSocketAction where
  Port : IntOrString := {}
  Host : String := ""
deriving DecidableEq

/-- The type `corev1.Handler`. -/
structure Handler where
  Exec : Option ExecAction := none
  HTTPGet : Option HTTPGetAction := none
  TCPSocket : Option TCPSocketAction := none
deriving DecidableEq

/-- The type `corev1.Probe`. -/
structure Probe where
  Handler : Handler := {}
  InitialDelaySeconds : Int := 0
  TimeoutSeconds : Int := 0
  PeriodSeconds : Int := 0
  SuccessThreshold : Int := 0
  FailureThreshold : Int := 0
deriving DecidableEq

/-- The type `corev1.VolumeMount`. -/
structure VolumeMount where
  Name : String := ""
  ReadOnly : Bool := false
  MountPath : String := ""
  SubPath : String := ""
deriving DecidableEq

/-- The type `corev1.ContainerPort`. -/
structure ContainerPort where
  Name : String := ""
  HostPort : Int := 0
  ContainerPort : Int := 0
  Protocol : String := ""
deriving DecidableEq

/-- The type `corev1.Container`. -/
structure Container where
  Name : String := ""
  Image : String := ""
  Command : List String := []
  Args : List String := []
  WorkingDir : String := ""
  Ports : List ContainerPort := []
  Env : List EnvVar := []
  VolumeMounts : List VolumeMount := []
  LivenessProbe : Option Probe := none
  ReadinessProbe : Option Probe := none
  ImagePullPolicy : String := ""
deriving DecidableEq

/-- The type `corev1.KeyToPath`. -/
structure KeyToPath where
  Key : String := ""
  Path : String := ""
  Mode : Option Int := none
deriving DecidableEq

/-- The type `corev1.SecretVolumeSource`. -/
structure SecretVolumeSource where
  SecretName : String := ""
  Items : List KeyToPath := []
  DefaultMode : Option Int := none
  Optional : Option Bool := none
deriving DecidableEq

/-- The type `corev1.HostPathVolumeSource`. -/
structure HostPathVolumeSource where
  Path : String := ""
deriving DecidableEq

/-- The type `corev1.EmptyDirVolumeSource`. -/
structure EmptyDirVolumeSource where
  Medium : String := ""
deriving DecidableEq

/-- The type `corev1.VolumeSource`. -/
structure VolumeSource where
  HostPath : Option HostPathVolumeSource := none
  EmptyDir : Option EmptyDirVolumeSource := none
  Secret : Option SecretVolumeSource := none
deriving DecidableEq

/-- The type `corev1.Volume`. -/
structure Volume where
  Name : String := ""
  VolumeSource : VolumeSource := {}
deriving DecidableEq

/-- The type `corev1.PodSpec`. -/
structure PodSpec where
  Volumes : List Volume := []
  Containers : List Container := []
  RestartPolicy : String := ""
  NodeSelector : Option StringMap := none
  ServiceAccountName : String := ""
deriving DecidableEq

/-- The type `corev1.PodTemplateSpec`. -/
structure PodTemplateSpec where
  ObjectMeta : ObjectMeta := {}
  Spec : PodSpec := {}
deriving DecidableEq

/-- The type `metav1.LabelSelector`. -/
structure LabelSelector where
  MatchLabels : Option StringMap := none
deriving DecidableEq

/-- The type `appsv1.DeploymentSpec`. -/
structure DeploymentSpec where
  Replicas : Option Int := none
  Selector : Option LabelSelector := none
  Template : PodTemplateSpec := {}
deriving DecidableEq

/-- The type `appsv1.Deployment`. -/
structure Deployment where
  TypeMeta : TypeMeta := {}
  ObjectMeta : ObjectMeta := {}
  Spec : DeploymentSpec := {}
deriving DecidableEq

/-- The type `corev1.ServiceAccount`. -/
structure ServiceAccount where
  TypeMeta : TypeMeta := {}
  ObjectMeta : ObjectMeta := {}
deriving DecidableEq

/-- The type `corev1.ConfigMap`. -/
structure ConfigMap where
  TypeMeta : TypeMeta := {}
  ObjectMeta : ObjectMeta := {}
  Data : Option StringMap := none
  BinaryData : Option (List (String × List Nat)) := none
deriving DecidableEq

/-- The type `corev1.ServicePort`. -/
structure ServicePort where
  Name : String := ""
  Protocol : String := ""
  Port : Int := 0
  TargetPort : IntOrString := {}
  NodePort : Int := 0
deriving DecidableEq

/-- The type `corev1.ServiceSpec`. -/
structure ServiceSpec where
  Ports : List ServicePort := []
  Selector : Option StringMap := none
  ClusterIP : String := ""
  Type_ : String := ""
deriving DecidableEq

/-- The type `corev1.Service`. -/
structure Service where
  TypeMeta : TypeMeta := {}
  ObjectMeta : ObjectMeta := {}
  Spec : ServiceSpec := {}
deriving DecidableEq

/-- The constant `corev1.ProtocolTCP`. -/
def ProtocolTCP : String := "TCP"

/-- The values a `[]runtime.Object` of this package holds: one constructor per
dynamic Go type. -/
inductive RuntimeObject where
  | ServiceAccount (o : ServiceAccount)
  | Deployment (o : Deployment)
  | ConfigMap (o : ConfigMap)
  | Service (o : Service)
deriving DecidableEq

/-- The Go type an element of a `[]runtime.Object` has. -/
inductive Kind where
  | ServiceAccount
  | Deployment
  | ConfigMap
  | Service
deriving DecidableEq

/-- The dynamic type of a runtime object. -/
def RuntimeObject.kind : RuntimeObject → Kind
  | .ServiceAccount _ => Kind.ServiceAccount
  | .Deployment _ => Kind.Deployment
  | .ConfigMap _ => Kind.ConfigMap
  | .Service _ => Kind.Service

/-- The type `FactoryArgs` of the sibling file `factory.go`, with the fields
`controller.go` reads. -/
structure FactoryArgs where
  DockerRepo : String := ""
  DockerTag : String := ""
  ControllerImage : String := ""
  ImporterImage : String := ""
  ClonerImage : String := ""
  UploadServerImage : String := ""
  Verbosity : String := ""
  PullPolicy : String := ""
  Namespace : String := ""
deriving DecidableEq

/-- What `controller.go` takes from outside the file.  The four builders are
arbitrary functions; `CreateDeployment` returns a `*appsv1.Deployment`, taken
here as the deployment it points to (the pointer is not nil). -/
structure Externals where
  /-- The constant `common.PrometheusLabel`. -/
  PrometheusLabel : String
  /-- The constant `common.InsecureRegistryConfigMap`. -/
  InsecureRegistryConfigMap : String
  /-- The constant `controller.APIServerPublicKeyDir`. -/
  APIServerPublicKeyDir : String
  /-- The constant `uploadProxyResourceName` of package `namespaced`. -/
  uploadProxyResourceName : String
  /-- The helper `utils.CreateServiceAccount(name)`. -/
  CreateServiceAccount : String → ServiceAccount
  /-- The helper `utils.CreateDeployment(name, matchKey, matchValue, serviceAccount, replicas)`. -/
  CreateDeployment : String → String → String → String → Int → Deployment
  /-- The helper `utils.CreateContainer(name, repo, image, tag, verbosity, pullPolicy)`. -/
  CreateContainer : String → String → String → String → String → String → Container
  /-- The helper `utils.WithCommonLabels(labels)`. -/
  WithCommonLabels : Option StringMap → Option StringMap

/-! ## The functions of `controller.go` -/

/-- The constant `controllerServiceAccount`. -/
def controllerServiceAccount : String := "cdi-sa"

/-- The constant `prometheusLabel`. -/
def prometheusLabel (X : Externals) : String := X.PrometheusLabel

/-- The constant `privilegedAccountPrefix`. -/
def privilegedAccountPrefix : String := "system:serviceaccount"

/-- The function `getControllerPrivilegedAccounts`. -/
def getControllerPrivilegedAccounts (args : FactoryArgs) : List String :=
  [privilegedAccountPrefix ++ ":" ++ args.Namespace ++ ":" ++ controllerServiceAccount]

/-- The function `createControllerServiceAccount`. -/
def createControllerServiceAccount (X : Externals) : ServiceAccount :=
  X.CreateServiceAccount controllerServiceAccount

/-- The function `createControllerDeployment`. -/
def createControllerDeployment (X : Externals)
    (repo controllerImage importerImage clonerImage uploadServerImage tag verbosity
      pullPolicy : String) : Deployment :=
  let deployment :=
    X.CreateDeployment "cdi-deployment" "app" "containerized-data-importer"
      controllerServiceAccount 1
  let container := X.CreateContainer "cdi-controller" repo controllerImage tag verbosity pullPolicy
  let container := { container with
    Env := [
      { Name := "IMPORTER_IMAGE", Value := repo ++ "/" ++ importerImage ++ ":" ++ tag },
      { Name := "CLONER_IMAGE", Value := repo ++ "/" ++ clonerImage ++ ":" ++ tag },
      { Name := "UPLOADSERVER_IMAGE", Value := repo ++ "/" ++ uploadServerImage ++ ":" ++ tag },
      { Name := "UPLOADPROXY_SERVICE", Value := X.uploadProxyResourceName },
      { Name := "PULL_POLICY", Value := pullPolicy }] }
  let container := { container with
    ReadinessProbe := some {
      Handler := { Exec := some { Command := ["cat", "/tmp/ready"] } }
      InitialDelaySeconds := 2
      PeriodSeconds := 5 } }
  let container := { container with
    VolumeMounts := [
      { Name := "cdi-api-signing-key", MountPath := X.APIServerPublicKeyDir }] }
  let deployment := { deployment with
    Spec := { deployment.Spec with
      Template := { deployment.Spec.Template with
        Spec := { deployment.Spec.Template.Spec with
          Volumes := [
            { Name := "cdi-api-signing-key"
              VolumeSource := {
                Secret := some {
                  SecretName := "cdi-api-signing-key"
                  Items := [{ Key := "id_rsa.pub", Path := "id_rsa.pub" }] } } }] } } } }
  { deployment with
    Spec := { deployment.Spec with
      Template := { deployment.Spec.Template with
        Spec := { deployment.Spec.Template.Spec with
          Containers := [container] } } } }

/-- The function `createPrometheusService`. -/
def createPrometheusService (X : Externals) : Service :=
  { TypeMeta := { APIVersion := "v1", Kind := "Service" }
    ObjectMeta := {
      Name := "kubevirt-prometheus-metrics"
      Labels := some [(prometheusLabel X, ""), ("kubevirt.io", "")] }
    Spec := {
      Selector := some [(prometheusLabel X, "")]
      Ports := [
        { Name := "metrics"
          Port := 443
          TargetPort := { Type_ := IntstrType.String, StrVal := "metrics" }
          Protocol := ProtocolTCP }] } }

/-- The function `createInsecureRegConfigMap`. -/
def createInsecureRegConfigMap (X : Externals) : ConfigMap :=
  { TypeMeta := { APIVersion := "v1", Kind := "ConfigMap" }
    ObjectMeta := {
      Name := X.InsecureRegistryConfigMap
      Labels := X.WithCommonLabels none } }

/-- The function `createControllerResources`. -/
def createControllerResources (X : Externals) (args : FactoryArgs) : List RuntimeObject :=
  [ RuntimeObject.ServiceAccount (createControllerServiceAccount X),
    RuntimeObject.Deployment
      (createControllerDeployment X args.DockerRepo args.ControllerImage args.ImporterImage
        args.ClonerImage args.UploadServerImage args.DockerTag args.Verbosity args.PullPolicy),
    RuntimeObject.ConfigMap (createInsecureRegConfigMap X) ]

/-! ## Observations on a deployment -/

/-- The containers of the pod template of a deployment. -/
def Deployment.containers (d : Deployment) : List Container :=
  d.Spec.Template.Spec.Containers

/-- The volumes of the pod template of a deployment. -/
def Deployment.volumes (d : Deployment) : List Volume :=
  d.Spec.Template.Spec.Volumes

/-- The values of the environment entries called `name`, over all containers of
the pod template, in order. -/
def Deployment.envValues (d : Deployment) (name : String) : List String :=
  d.containers.flatMap fun c => (c.Env.filter fun e => e.Name = name).map EnvVar.Value

/-! ## Observations on a service -/

/-- The selector of a service read as a map: reading a nil map finds no key. -/
def Service.selector (s : Service) : StringMap :=
  s.Spec.Selector.getD []

/-- The labels of a service read as a map: reading a nil map finds no key. -/
def Service.labels (s : Service) : StringMap :=
  s.ObjectMeta.Labels.getD []

/-! ## Sample surroundings

Concrete values for the constants and helpers that live outside the file, used
to evaluate the definitions above at explicit inputs. -/

/-- Sample externals: fixed constants, and helpers that store the arguments they
are given in the fields of the same name. -/
def sampleExternals : Externals where
  PrometheusLabel := "prometheus.kubevirt.io"
  InsecureRegistryConfigMap := "cdi-insecure-registries"
  APIServerPublicKeyDir := "/var/run/cdi/apiserver/key"
  uploadProxyResourceName := "cdi-uploadproxy"
  CreateServiceAccount := fun name =>
    { TypeMeta := { APIVersion := "v1", Kind := "ServiceAccount" }
      ObjectMeta := { Name := name } }
  CreateDeployment := fun name matchKey matchValue serviceAccount replicas =>
    { TypeMeta := { APIVersion := "apps/v1", Kind := "Deployment" }
      ObjectMeta := { Name := name, Labels := some [(matchKey, matchValue)] }
      Spec := {
        Replicas := some replicas
        Selector := some { MatchLabels := some [(matchKey, matchValue)] }
        Template := {
          ObjectMeta := { Labels := some [(matchKey, matchValue)] }
          Spec := { ServiceAccountName := serviceAccount } } } }
  CreateContainer := fun name repo image tag verbosity pullPolicy =>
    { Name := name
      Image := repo ++ "/" ++ image ++ ":" ++ tag
      Args := ["-v=" ++ verbosity]
      ImagePullPolicy := pullPolicy }
  WithCommonLabels := fun labels => some (("cdi.kubevirt.io", "") :: labels.getD [])

/-- Sample arguments of the factory. -/
def sampleArgs : FactoryArgs where
  DockerRepo := "quay.io/org"
  DockerTag := "v1.2.3"
  ControllerImage := "cdi-controller"
  ImporterImage := "cdi-importer"
  ClonerImage := "cdi-cloner"
  UploadServerImage := "cdi-uploadserver"
  Verbosity := "1"
  PullPolicy := "IfNotPresent"
  Namespace := "cdi"

/-! ## The two calls `createControllerDeployment` starts from -/

/-- The deployment skeleton requested on the first line of
`createControllerDeployment`. -/
def controllerSkeleton (X : Externals) : Deployment :=
  X.CreateDeployment "cdi-deployment" "app" "containerized-data-importer"
    controllerServiceAccount 1

/-- The container requested on the second line of `createControllerDeployment`. -/
def controllerBaseContainer (X : Externals)
    (repo controllerImage tag verbosity pullPolicy : String) : Container :=
  X.CreateContainer "cdi-controller" repo controllerImage tag verbosity pullPolicy

/-! ## Observations on the resource list -/

/-- The name of a service account element; nothing for the other kinds. -/
def RuntimeObject.serviceAccountName? : RuntimeObject → Option String
  | .ServiceAccount o => some o.ObjectMeta.Name
  | _ => none

/-- The service account name in the pod template of a deployment element;
nothing for the other kinds. -/
def RuntimeObject.podServiceAccountName? : RuntimeObject → Option String
  | .Deployment o => some o.Spec.Template.Spec.ServiceAccountName
  | _ => none

/-- The namespace written in the metadata of an element. -/
def RuntimeObject.metaNamespace : RuntimeObject → String
  | .ServiceAccount o => o.ObjectMeta.Namespace
  | .Deployment o => o.ObjectMeta.Namespace
  | .ConfigMap o => o.ObjectMeta.Namespace
  | .Service o => o.ObjectMeta.Namespace

/-- A deployment with the two lists of its pod template replaced. -/
def Deployment.withPodLists (d : Deployment) (volumes : List Volume)
    (containers : List Container) : Deployment :=
  { d with
    Spec := { d.Spec with
      Template := { d.Spec.Template with
        Spec := { d.Spec.Template.Spec with
          Volumes := volumes, Containers := containers } } } }

/-- A container with its environment, readiness probe and volume mounts
replaced. -/
def Container.withOverwritten (c : Container) (env : List EnvVar) (probe : Option Probe)
    (mounts : List VolumeMount) : Container :=
  { c with Env := env, ReadinessProbe := probe, VolumeMounts := mounts }

/-! ## Contracts of what lies outside the file -/

/-- Modelled from the spec: the helpers `utils.CreateServiceAccount` and
`utils.CreateDeployment`, which are not in the file.  The spec describes the
first as a fixed-shape constructor parameterized by the name, and the second as
building a skeleton whose pod template is bound to the service account it is
given: the service account carries the name passed, and the pod template of the
skeleton carries the service account name passed. -/
def Externals.BindsNames (X : Externals) : Prop :=
  (∀ name : String, (X.CreateServiceAccount name).ObjectMeta.Name = name) ∧
  (∀ (name matchKey matchValue serviceAccount : String) (replicas : Int),
    (X.CreateDeployment name matchKey matchValue serviceAccount
      replicas).Spec.Template.Spec.ServiceAccountName = serviceAccount)

/-- Two runs, with surroundings `X` and `Y`, see the same constants and get the
same results from the helpers at the calls `createControllerResources` makes for
`args`. -/
def Externals.SameAnswers (X Y : Externals) (args : FactoryArgs) : Prop :=
  X.PrometheusLabel = Y.PrometheusLabel ∧
  X.InsecureRegistryConfigMap = Y.InsecureRegistryConfigMap ∧
  X.APIServerPublicKeyDir = Y.APIServerPublicKeyDir ∧
  X.uploadProxyResourceName = Y.uploadProxyResourceName ∧
  X.CreateServiceAccount controllerServiceAccount =
    Y.CreateServiceAccount controllerServiceAccount ∧
  controllerSkeleton X = controllerSkeleton Y ∧
  controllerBaseContainer X args.DockerRepo args.ControllerImage args.DockerTag
      args.Verbosity args.PullPolicy =
    controllerBaseContainer Y args.DockerRepo args.ControllerImage args.DockerTag
      args.Verbosity args.PullPolicy ∧
  X.WithCommonLabels none = Y.WithCommonLabels none

/-! ## Auxiliary facts -/

/-- A string between a fixed prefix and a fixed suffix is determined by the
whole. -/
theorem append_middle_cancel (p s x y : String) (h : p ++ x ++ s = p ++ y ++ s) : x = y := by
  have hd := congrArg String.data h
  simp only [String.data_append] at hd
  exact String.ext (List.append_cancel_left (List.append_cancel_right hd))

/-- Looking up the only key of a one-entry map. -/
theorem StringMap.get?_singleton (k v k2 : String) :
    StringMap.get? [(k, v)] k2 = if k2 = k then some v else none := by
  unfold StringMap.get?
  by_cases h : k2 = k
  · subst h; simp [List.lookup]
  · have hb : (k2 == k) = false := by simpa using h
    simp [List.lookup, hb, h]

/-- Looking up the first key of a map literal. -/
theorem StringMap.get?_head (k v : String) (m : StringMap) :
    StringMap.get? ((k, v) :: m) k = some v := by
  unfold StringMap.get?
  simp [List.lookup]

/-! ## The aggregate and the privileged accounts -/

/-- C1: for every FactoryArgs value, createControllerResources returns exactly
three objects, in this order the ServiceAccount of createControllerServiceAccount,
the Deployment of createControllerDeployment on the fields of the arguments, and
the ConfigMap of createInsecureRegConfigMap; their kinds are ServiceAccount,
Deployment, ConfigMap, and the metrics Service of createPrometheusService is not
an element of the list. -/
theorem createControllerResources_three_in_order (X : Externals) (args : FactoryArgs) :
    createControllerResources X args =
        [ RuntimeObject.ServiceAccount (createControllerServiceAccount X),
          RuntimeObject.Deployment
            (createControllerDeployment X args.DockerRepo args.ControllerImage
              args.ImporterImage args.ClonerImage args.UploadServerImage args.DockerTag
              args.Verbosity args.PullPolicy),
          RuntimeObject.ConfigMap (createInsecureRegConfigMap X) ] ∧
      (createControllerResources X args).length = 3 ∧
      (createControllerResources X args).map RuntimeObject.kind =
        [Kind.ServiceAccount, Kind.Deployment, Kind.ConfigMap] ∧
      RuntimeObject.Service (createPrometheusService X) ∉ createControllerResources X args ∧
      Kind.Service ∉ (createControllerResources X args).map RuntimeObject.kind := by
  refine ⟨rfl, rfl, rfl, ?_, ?_⟩
  · simp [createControllerResources]
  · simp [createControllerResources, RuntimeObject.kind]

/-- C3: for every FactoryArgs with namespace ns, getControllerPrivilegedAccounts
returns exactly one string, "system:serviceaccount:" ++ ns ++ ":cdi-sa"; for
ns = "cdi" it is ["system:serviceaccount:cdi:cdi-sa"]; the result is the one for
the record that keeps the namespace and has every other field empty, so no other
field affects it. -/
theorem getControllerPrivilegedAccounts_eq (args : FactoryArgs) :
    getControllerPrivilegedAccounts args =
        ["system:serviceaccount:" ++ args.Namespace ++ ":cdi-sa"] ∧
      (getControllerPrivilegedAccounts args).length = 1 ∧
      getControllerPrivilegedAccounts args =
        getControllerPrivilegedAccounts { Namespace := args.Namespace } ∧
      getControllerPrivilegedAccounts { args with Namespace := "cdi" } =
        ["system:serviceaccount:cdi:cdi-sa"] := by
  have key : ∀ a : FactoryArgs, getControllerPrivilegedAccounts a =
      ["system:serviceaccount:" ++ a.Namespace ++ ":cdi-sa"] := by
    intro a
    have h1 : privilegedAccountPrefix ++ ":" = "system:serviceaccount:" := by decide
    have h2 : ":" ++ controllerServiceAccount = ":cdi-sa" := by decide
    simp only [getControllerPrivilegedAccounts]
    rw [h1, String.append_assoc, h2]
  refine ⟨key args, rfl, rfl, ?_⟩
  rw [key]
  show ["system:serviceaccount:" ++ "cdi" ++ ":cdi-sa"] = ["system:serviceaccount:cdi:cdi-sa"]
  decide

/-! ## The controller deployment -/

/-- C2: for every repo, image names, tag, verbosity and pull policy (any string
at all), the single container of createControllerDeployment has exactly five
environment entries, named in this order IMPORTER_IMAGE, CLONER_IMAGE,
UPLOADSERVER_IMAGE, UPLOADPROXY_SERVICE, PULL_POLICY, with values
repo/importerImage:tag, repo/clonerImage:tag, repo/uploadServerImage:tag, the
constant uploadProxyResourceName and the pull policy unchanged; with repo
"quay.io/org", importer image "cdi-importer" and tag "v1.2.3" the first value is
"quay.io/org/cdi-importer:v1.2.3". -/
theorem createControllerDeployment_env (X : Externals)
    (repo controllerImage importerImage clonerImage uploadServerImage tag verbosity
      pullPolicy : String) :
    (createControllerDeployment X repo controllerImage importerImage clonerImage
        uploadServerImage tag verbosity pullPolicy).containers.map Container.Env =
      [[ { Name := "IMPORTER_IMAGE", Value := repo ++ "/" ++ importerImage ++ ":" ++ tag },
         { Name := "CLONER_IMAGE", Value := repo ++ "/" ++ clonerImage ++ ":" ++ tag },
         { Name := "UPLOADSERVER_IMAGE",
           Value := repo ++ "/" ++ uploadServerImage ++ ":" ++ tag },
         { Name := "UPLOADPROXY_SERVICE", Value := X.uploadProxyResourceName },
         { Name := "PULL_POLICY", Value := pullPolicy } ]] ∧
      (createControllerDeployment X repo controllerImage importerImage clonerImage
        uploadServerImage tag verbosity pullPolicy).containers.map
          (fun c => c.Env.map EnvVar.Name) =
        [["IMPORTER_IMAGE", "CLONER_IMAGE", "UPLOADSERVER_IMAGE", "UPLOADPROXY_SERVICE",
          "PULL_POLICY"]] ∧
      (createControllerDeployment X repo controllerImage importerImage clonerImage
        uploadServerImage tag verbosity pullPolicy).containers.map
          (fun c => c.Env.length) = [5] ∧
      (createControllerDeployment X repo controllerImage importerImage clonerImage
        uploadServerImage tag verbosity pullPolicy).envValues "PULL_POLICY" = [pullPolicy] ∧
      (createControllerDeployment X "quay.io/org" controllerImage "cdi-importer" clonerImage
        uploadServerImage "v1.2.3" verbosity pullPolicy).envValues "IMPORTER_IMAGE" =
        ["quay.io/org/cdi-importer:v1.2.3"] := by
  refine ⟨rfl, rfl, rfl, ?_, ?_⟩
  · simp [Deployment.envValues, Deployment.containers, createControllerDeployment]
  · have h : "quay.io/org" ++ "/" ++ "cdi-importer" ++ ":" ++ "v1.2.3" =
        "quay.io/org/cdi-importer:v1.2.3" := by decide
    simp [Deployment.envValues, Deployment.containers, createControllerDeployment, h]

/-- C4: for every input, empty strings included, and whatever the deployment
skeleton and container helpers return, the deployment of
createControllerDeployment has exactly one container in its pod template, that
container has exactly one volume mount, and the pod template has exactly one
volume. -/
theorem createControllerDeployment_one_container_one_mount (X : Externals)
    (repo controllerImage importerImage clonerImage uploadServerImage tag verbosity
      pullPolicy : String) :
    (createControllerDeployment X repo controllerImage importerImage clonerImage
        uploadServerImage tag verbosity pullPolicy).containers.length = 1 ∧
      (createControllerDeployment X repo controllerImage importerImage clonerImage
        uploadServerImage tag verbosity pullPolicy).containers.map
          (fun c => c.VolumeMounts.length) = [1] ∧
      (createControllerDeployment X repo controllerImage importerImage clonerImage
        uploadServerImage tag verbosity pullPolicy).volumes.length = 1 ∧
      (createControllerDeployment X "" "" "" "" "" "" "" "").containers.map
          (fun c => c.VolumeMounts.length) = [1] :=
  ⟨rfl, rfl, rfl, rfl⟩

/-- C8: for every input, the single container of createControllerDeployment has
a readiness probe that runs the command ["cat", "/tmp/ready"], with initial delay
2 and period 5, and that has neither an HTTP nor a TCP handler. -/
theorem createControllerDeployment_readinessProbe (X : Externals)
    (repo controllerImage importerImage clonerImage uploadServerImage tag verbosity
      pullPolicy : String) :
    (createControllerDeployment X repo controllerImage importerImage clonerImage
        uploadServerImage tag verbosity pullPolicy).containers.map Container.ReadinessProbe =
      [some {
        Handler := { Exec := some { Command := ["cat", "/tmp/ready"] },
                     HTTPGet := none, TCPSocket := none }
        InitialDelaySeconds := 2
        TimeoutSeconds := 0
        PeriodSeconds := 5
        SuccessThreshold := 0
        FailureThreshold := 0 }] ∧
      (createControllerDeployment X repo controllerImage importerImage clonerImage
        uploadServerImage tag verbosity pullPolicy).containers.map
          (fun c => c.ReadinessProbe.map fun p =>
            (p.Handler.Exec.map ExecAction.Command, p.Handler.HTTPGet.isNone,
              p.Handler.TCPSocket.isNone, p.InitialDelaySeconds, p.PeriodSeconds)) =
        [some (some ["cat", "/tmp/ready"], true, true, 2, 5)] :=
  ⟨rfl, rfl⟩

/-- C9: for every input, the volume mounts of the container of
createControllerDeployment resolve to declared volumes: the only mount and the
only pod volume are both named "cdi-api-signing-key", so every mount name is a
volume name; the volume is a secret volume (no other source) for the secret
"cdi-api-signing-key" with the single item key "id_rsa.pub", path "id_rsa.pub";
the mount path is the constant APIServerPublicKeyDir, whatever the input. -/
theorem createControllerDeployment_mount_resolves (X : Externals)
    (repo controllerImage importerImage clonerImage uploadServerImage tag verbosity
      pullPolicy : String) :
    (createControllerDeployment X repo controllerImage importerImage clonerImage
        uploadServerImage tag verbosity pullPolicy).containers.map Container.VolumeMounts =
      [[ { Name := "cdi-api-signing-key", ReadOnly := false,
           MountPath := X.APIServerPublicKeyDir, SubPath := "" } ]] ∧
      (createControllerDeployment X repo controllerImage importerImage clonerImage
        uploadServerImage tag verbosity pullPolicy).volumes =
        [ { Name := "cdi-api-signing-key"
            VolumeSource := {
              HostPath := none
              EmptyDir := none
              Secret := some {
                SecretName := "cdi-api-signing-key"
                Items := [{ Key := "id_rsa.pub", Path := "id_rsa.pub", Mode := none }]
                DefaultMode := none
                Optional := none } } } ] ∧
      (createControllerDeployment X repo controllerImage importerImage clonerImage
        uploadServerImage tag verbosity pullPolicy).containers.flatMap
          (fun c => c.VolumeMounts.map VolumeMount.Name) =
        (createControllerDeployment X repo controllerImage importerImage clonerImage
          uploadServerImage tag verbosity pullPolicy).volumes.map Volume.Name ∧
      ((createControllerDeployment X repo controllerImage importerImage clonerImage
        uploadServerImage tag verbosity pullPolicy).containers.flatMap
          (fun c => c.VolumeMounts.map VolumeMount.Name)).all
        (fun n => decide (n ∈ (createControllerDeployment X repo controllerImage importerImage
          clonerImage uploadServerImage tag verbosity pullPolicy).volumes.map Volume.Name))
        = true := by
  refine ⟨rfl, rfl, rfl, ?_⟩
  simp [Deployment.containers, Deployment.volumes, createControllerDeployment]

/-- C10: empty strings are accepted and pass through: for every repo and tag,
createControllerDeployment with an empty importer image name returns a deployment
whose IMPORTER_IMAGE value is repo ++ "/:" ++ tag; the same holds for the cloner
and upload server image names and their variables; with an empty repo the value
is "/" followed by the image name, ":" and the tag, so its first character is
the slash. -/
theorem createControllerDeployment_empty_strings (X : Externals)
    (repo controllerImage importerImage clonerImage uploadServerImage tag verbosity
      pullPolicy : String) :
    (createControllerDeployment X repo controllerImage "" clonerImage uploadServerImage tag
        verbosity pullPolicy).envValues "IMPORTER_IMAGE" = [repo ++ "/:" ++ tag] ∧
      (createControllerDeployment X repo controllerImage importerImage "" uploadServerImage tag
        verbosity pullPolicy).envValues "CLONER_IMAGE" = [repo ++ "/:" ++ tag] ∧
      (createControllerDeployment X repo controllerImage importerImage clonerImage "" tag
        verbosity pullPolicy).envValues "UPLOADSERVER_IMAGE" = [repo ++ "/:" ++ tag] ∧
      (createControllerDeployment X "" controllerImage importerImage clonerImage
        uploadServerImage tag verbosity pullPolicy).envValues "IMPORTER_IMAGE" =
        ["/" ++ (importerImage ++ ":" ++ tag)] ∧
      ((createControllerDeployment X "" controllerImage importerImage clonerImage
        uploadServerImage tag verbosity pullPolicy).envValues "IMPORTER_IMAGE").map
          (fun v => v.data.head?) = [some '/'] ∧
      (createControllerDeployment X "" "" "" "" "" "" "" "").envValues "IMPORTER_IMAGE" =
        ["/:"] := by
  have hempty : ∀ r t : String, r ++ "/" ++ ":" ++ t = r ++ "/:" ++ t := by
    intro r t
    have h : "/" ++ ":" = "/:" := by decide
    rw [String.append_assoc r, h]
  have hrepo : ∀ i t : String, "/" ++ i ++ ":" ++ t = "/" ++ (i ++ ":" ++ t) := by
    intro i t
    rw [String.append_assoc, String.append_assoc, String.append_assoc]
  have hhead : ∀ r : String, ("/" ++ r).data.head? = some '/' := by
    intro r
    rw [String.data_append]
    rfl
  refine ⟨?_, ?_, ?_, ?_, ?_, ?_⟩
  · simp [Deployment.envValues, Deployment.containers, createControllerDeployment, hempty]
  · simp [Deployment.envValues, Deployment.containers, createControllerDeployment, hempty]
  · simp [Deployment.envValues, Deployment.containers, createControllerDeployment, hempty]
  · simp [Deployment.envValues, Deployment.containers, createControllerDeployment, hrepo]
  · simp [Deployment.envValues, Deployment.containers, createControllerDeployment, hrepo,
      hhead]
  · have h : "" ++ "/" ++ "" ++ ":" ++ "" = "/:" := by decide
    simp [Deployment.envValues, Deployment.containers, createControllerDeployment, h]

/-! ## The metrics service -/

/-- C5: in the service of createPrometheusService the selector is the one-entry
map sending the prometheus label key to the empty string, and it is a sub-map of
the labels of the service: every key of the selector has the same value in the
labels. -/
theorem createPrometheusService_selector_subMap_labels (X : Externals) :
    (createPrometheusService X).Spec.Selector = some [(prometheusLabel X, "")] ∧
      (createPrometheusService X).selector.size = 1 ∧
      (createPrometheusService X).selector.get? (prometheusLabel X) = some "" ∧
      (createPrometheusService X).labels.get? (prometheusLabel X) = some "" ∧
      StringMap.SubMap (createPrometheusService X).selector
        (createPrometheusService X).labels := by
  refine ⟨rfl, ?_, ?_, ?_, ?_⟩
  · simp [Service.selector, createPrometheusService, StringMap.size]
  · exact StringMap.get?_head _ _ _
  · exact StringMap.get?_head _ _ _
  · intro k v hk
    have hsel : (createPrometheusService X).selector = [(prometheusLabel X, "")] := rfl
    rw [hsel, StringMap.get?_singleton] at hk
    by_cases h : k = prometheusLabel X
    · rw [if_pos h] at hk
      rw [h, ← hk]
      exact StringMap.get?_head _ _ _
    · rw [if_neg h] at hk
      cases hk

/-- C6, as the claim states it, fails: with the sample constants the selector of
the metrics service has one entry, not two, and it differs from the labels, both
as written and as a set of key/value pairs (the labels hold "kubevirt.io", the
selector does not). -/
theorem createPrometheusService_selector_two_entries_false :
    ¬ ((createPrometheusService sampleExternals).selector.size = 2) ∧
      (createPrometheusService sampleExternals).Spec.Selector ≠
        (createPrometheusService sampleExternals).ObjectMeta.Labels ∧
      ¬ StringMap.Equiv (createPrometheusService sampleExternals).selector
        (createPrometheusService sampleExternals).labels := by
  refine ⟨by decide, by decide, ?_⟩
  intro h
  have h2 := h "kubevirt.io"
  revert h2
  decide

/-- C6, amended: the metrics service has two labels and one label selector,
which matches one of them.  When the prometheus label key is not "kubevirt.io",
the labels have exactly two entries (the prometheus label and "kubevirt.io", both
with the empty value), the selector has exactly one entry (the prometheus label
with the empty value), the selector is a sub-map of the labels, and the two maps
are not equal. -/
theorem createPrometheusService_two_labels_one_selector (X : Externals)
    (hkey : X.PrometheusLabel ≠ "kubevirt.io") :
    (createPrometheusService X).ObjectMeta.Labels =
        some [(X.PrometheusLabel, ""), ("kubevirt.io", "")] ∧
      (createPrometheusService X).labels.size = 2 ∧
      (createPrometheusService X).Spec.Selector = some [(X.PrometheusLabel, "")] ∧
      (createPrometheusService X).selector.size = 1 ∧
      StringMap.SubMap (createPrometheusService X).selector
        (createPrometheusService X).labels ∧
      ¬ StringMap.Equiv (createPrometheusService X).selector
        (createPrometheusService X).labels := by
  have hsel : (createPrometheusService X).selector = [(X.PrometheusLabel, "")] := rfl
  have hlab : (createPrometheusService X).labels =
      [(X.PrometheusLabel, ""), ("kubevirt.io", "")] := rfl
  refine ⟨rfl, ?_, rfl, ?_, ?_, ?_⟩
  · rw [hlab]
    simp [StringMap.size, hkey]
  · rw [hsel]
    simp [StringMap.size]
  · intro k v hk
    rw [hsel, StringMap.get?_singleton] at hk
    by_cases h : k = X.PrometheusLabel
    · rw [if_pos h] at hk
      rw [h, ← hk, hlab]
      exact StringMap.get?_head _ _ _
    · rw [if_neg h] at hk
      cases hk
  · intro h
    have h2 := h "kubevirt.io"
    rw [hsel, hlab, StringMap.get?_singleton, if_neg (Ne.symm hkey)] at h2
    have hb : ("kubevirt.io" == X.PrometheusLabel) = false := by
      simpa using Ne.symm hkey
    simp [StringMap.get?, List.lookup, hb] at h2

/-- The amended C6 at the sample constants, whose prometheus label key is not
"kubevirt.io". -/
theorem createPrometheusService_two_labels_one_selector_witness :
    sampleExternals.PrometheusLabel ≠ "kubevirt.io" ∧
      (createPrometheusService sampleExternals).labels.size = 2 ∧
      (createPrometheusService sampleExternals).selector.size = 1 :=
  ⟨by decide,
    (createPrometheusService_two_labels_one_selector sampleExternals (by decide)).2.1,
    (createPrometheusService_two_labels_one_selector sampleExternals (by decide)).2.2.2.1⟩

/-- C7: the service of createPrometheusService has kind "Service", API version
"v1", the name "kubevirt-prometheus-metrics", and exactly one port, named
"metrics", with port number 443, protocol TCP and, as target, the port named
"metrics" (a string, not a number). -/
theorem createPrometheusService_shape (X : Externals) :
    (createPrometheusService X).TypeMeta = { Kind := "Service", APIVersion := "v1" } ∧
      (createPrometheusService X).ObjectMeta.Name = "kubevirt-prometheus-metrics" ∧
      (createPrometheusService X).Spec.Ports.length = 1 ∧
      (createPrometheusService X).Spec.Ports =
        [ { Name := "metrics"
            Protocol := "TCP"
            Port := 443
            TargetPort := { Type_ := IntstrType.String, IntVal := 0, StrVal := "metrics" }
            NodePort := 0 } ] ∧
      (createPrometheusService X).Spec.Ports.map (fun p => p.TargetPort.Type_) =
        [IntstrType.String] :=
  ⟨rfl, rfl, rfl, rfl, rfl⟩

/-! ## Names shared between the resources -/

/-- C11: the deployment refers to the service account by one name.  The service
account is requested with the name "cdi-sa" and the deployment skeleton with the
name "cdi-deployment", the label app=containerized-data-importer, the same
service account name "cdi-sa" and replica count 1, and the builder leaves the
service account name of the skeleton as it is, for every input.  With helpers
that bind the names they are given, the service account of the list returned by
createControllerResources and the pod template of its deployment both carry
"cdi-sa". -/
theorem createControllerResources_serviceAccount_name (X : Externals) (args : FactoryArgs)
    (hX : X.BindsNames)
    (repo controllerImage importerImage clonerImage uploadServerImage tag verbosity
      pullPolicy : String) :
    createControllerServiceAccount X = X.CreateServiceAccount "cdi-sa" ∧
      controllerSkeleton X =
        X.CreateDeployment "cdi-deployment" "app" "containerized-data-importer" "cdi-sa" 1 ∧
      (createControllerDeployment X repo controllerImage importerImage clonerImage
          uploadServerImage tag verbosity pullPolicy).Spec.Template.Spec.ServiceAccountName =
        (controllerSkeleton X).Spec.Template.Spec.ServiceAccountName ∧
      (createControllerResources X args).filterMap RuntimeObject.serviceAccountName? =
        ["cdi-sa"] ∧
      (createControllerResources X args).filterMap RuntimeObject.podServiceAccountName? =
        ["cdi-sa"] ∧
      (createControllerResources X args).filterMap RuntimeObject.podServiceAccountName? =
        (createControllerResources X args).filterMap RuntimeObject.serviceAccountName? := by
  have hsa : (createControllerResources X args).filterMap RuntimeObject.serviceAccountName? =
      ["cdi-sa"] := by
    have h := hX.1 "cdi-sa"
    simp only [createControllerResources, createControllerServiceAccount,
      controllerServiceAccount, List.filterMap_cons, List.filterMap_nil,
      RuntimeObject.serviceAccountName?]
    rw [h]
  have hpod : (createControllerResources X args).filterMap
      RuntimeObject.podServiceAccountName? = ["cdi-sa"] := by
    have h := hX.2 "cdi-deployment" "app" "containerized-data-importer" "cdi-sa" 1
    simp only [createControllerResources, List.filterMap_cons, List.filterMap_nil,
      RuntimeObject.podServiceAccountName?]
    show [(X.CreateDeployment "cdi-deployment" "app" "containerized-data-importer" "cdi-sa"
      1).Spec.Template.Spec.ServiceAccountName] = ["cdi-sa"]
    rw [h]
  exact ⟨rfl, rfl, rfl, hsa, hpod, hpod.trans hsa.symm⟩

/-- The sample helpers bind the names they are given, and C11 holds for them at
the sample arguments. -/
theorem createControllerResources_serviceAccount_name_witness :
    (createControllerResources sampleExternals sampleArgs).filterMap
        RuntimeObject.podServiceAccountName? =
      (createControllerResources sampleExternals sampleArgs).filterMap
        RuntimeObject.serviceAccountName? ∧
      (createControllerResources sampleExternals sampleArgs).filterMap
        RuntimeObject.serviceAccountName? = ["cdi-sa"] :=
  have h := createControllerResources_serviceAccount_name sampleExternals sampleArgs
    ⟨fun _ => rfl, fun _ _ _ _ _ => rfl⟩ "" "" "" "" "" "" "" ""
  ⟨h.2.2.2.2.2, h.2.2.2.1⟩

/-! ## Determinism and independence -/

/-- C12: two calls of createControllerResources with identical arguments give
equal outputs (so the same length, and equal service account, deployment and
config map, maps included), when the two runs see the same constants and get the
same results from the helpers at the calls made; under the same condition the
two results of getControllerPrivilegedAccounts are equal, and so are the two
results of createPrometheusService. -/
theorem createControllerResources_deterministic (X Y : Externals) (a b : FactoryArgs)
    (hargs : a = b) (hXY : X.SameAnswers Y a) :
    createControllerResources X a = createControllerResources Y b ∧
      (createControllerResources X a).length = (createControllerResources Y b).length ∧
      getControllerPrivilegedAccounts a = getControllerPrivilegedAccounts b ∧
      createPrometheusService X = createPrometheusService Y := by
  subst hargs
  obtain ⟨hprom, hcm, hdir, hproxy, hsa, hskel, hcont, hlabels⟩ := hXY
  have hres : createControllerResources X a = createControllerResources Y a := by
    unfold controllerSkeleton at hskel
    unfold controllerBaseContainer at hcont
    simp only [createControllerResources, createControllerServiceAccount,
      createControllerDeployment, createInsecureRegConfigMap, hcm, hdir, hproxy, hsa, hskel,
      hcont, hlabels]
  refine ⟨hres, by rw [hres], rfl, ?_⟩
  simp only [createPrometheusService, prometheusLabel, hprom]

/-- C12 at the sample surroundings and arguments, both runs being the same. -/
theorem createControllerResources_deterministic_witness :
    createControllerResources sampleExternals sampleArgs =
        createControllerResources sampleExternals sampleArgs ∧
      (createControllerResources sampleExternals sampleArgs).length = 3 ∧
      createPrometheusService sampleExternals = createPrometheusService sampleExternals :=
  have h := createControllerResources_deterministic sampleExternals sampleExternals
    sampleArgs sampleArgs rfl ⟨rfl, rfl, rfl, rfl, rfl, rfl, rfl, rfl⟩
  ⟨h.1, rfl, h.2.2.2⟩

/-- C14: getControllerPrivilegedAccounts is injective in the namespace: two
argument records give the same identity strings exactly when their namespaces
are equal, so different namespaces never give the same privileged identity. -/
theorem getControllerPrivilegedAccounts_injective (a b : FactoryArgs) :
    (getControllerPrivilegedAccounts a = getControllerPrivilegedAccounts b ↔
        a.Namespace = b.Namespace) ∧
      (getControllerPrivilegedAccounts a ≠ getControllerPrivilegedAccounts b ↔
        a.Namespace ≠ b.Namespace) := by
  have key : getControllerPrivilegedAccounts a = getControllerPrivilegedAccounts b ↔
      a.Namespace = b.Namespace := by
    constructor
    · intro h
      simp only [getControllerPrivilegedAccounts, List.cons.injEq, and_true] at h
      rw [String.append_assoc privilegedAccountPrefix, String.append_assoc privilegedAccountPrefix]
        at h
      exact append_middle_cancel (privilegedAccountPrefix ++ ":") (":" ++ controllerServiceAccount)
        _ _ (by simpa only [String.append_assoc] using h)
    · intro h
      simp only [getControllerPrivilegedAccounts, h]
  exact ⟨key, not_congr key⟩

/-- C15: the output of createControllerResources does not depend on the
namespace: changing only the Namespace field of the arguments leaves the returned
list unchanged, and the config map built here carries no namespace at all. -/
theorem createControllerResources_namespace_independent (X : Externals) (args : FactoryArgs)
    (ns : String) :
    createControllerResources X { args with Namespace := ns } =
        createControllerResources X args ∧
      createControllerResources X
          { DockerRepo := args.DockerRepo, DockerTag := args.DockerTag,
            ControllerImage := args.ControllerImage, ImporterImage := args.ImporterImage,
            ClonerImage := args.ClonerImage, UploadServerImage := args.UploadServerImage,
            Verbosity := args.Verbosity, PullPolicy := args.PullPolicy, Namespace := ns } =
        createControllerResources X args ∧
      (createInsecureRegConfigMap X).ObjectMeta.Namespace = "" ∧
      (RuntimeObject.ConfigMap (createInsecureRegConfigMap X)).metaNamespace = "" :=
  ⟨rfl, rfl, rfl, rfl⟩

/-! ## The config map -/

/-- C13: createInsecureRegConfigMap returns a config map of kind "ConfigMap" and
API version "v1", named by the constant InsecureRegistryConfigMap, with no data
(Data and BinaryData are both absent), and with the labels the common-labels
helper gives for an absent label map. -/
theorem createInsecureRegConfigMap_shape (X : Externals) :
    (createInsecureRegConfigMap X).TypeMeta = { Kind := "ConfigMap", APIVersion := "v1" } ∧
      (createInsecureRegConfigMap X).ObjectMeta.Name = X.InsecureRegistryConfigMap ∧
      (createInsecureRegConfigMap X).Data = none ∧
      (createInsecureRegConfigMap X).BinaryData = none ∧
      (createInsecureRegConfigMap X).ObjectMeta.Labels = X.WithCommonLabels none :=
  ⟨rfl, rfl, rfl, rfl, rfl⟩

/-! ## What the deployment builder leaves alone -/

/-- C16: createControllerDeployment changes five fields of what the helpers
return and nothing else.  Of the container requested as "cdi-controller" with the
repo, controller image, tag, verbosity and pull policy, only Env, ReadinessProbe
and VolumeMounts are overwritten: name, image, command, arguments, working
directory, ports, pull policy and liveness probe are the ones of the helper, and
putting the three fields back gives the container of the helper.  Of the
deployment skeleton only the Volumes and Containers of the pod template are
overwritten: type, metadata, replica count, selector, pod template metadata,
restart policy, node selector and service account name are the ones of the
skeleton, and putting the two lists back gives the skeleton.  So the liveness
probe is whatever the container helper defines; with the sample helper there is
none. -/
theorem createControllerDeployment_frame (X : Externals)
    (repo controllerImage importerImage clonerImage uploadServerImage tag verbosity
      pullPolicy : String) :
    controllerBaseContainer X repo controllerImage tag verbosity pullPolicy =
        X.CreateContainer "cdi-controller" repo controllerImage tag verbosity pullPolicy ∧
      (createControllerDeployment X repo controllerImage importerImage clonerImage
          uploadServerImage tag verbosity pullPolicy).containers.map
            (fun c => (c.Name, c.Image, c.Command, c.Args, c.WorkingDir, c.Ports,
              c.ImagePullPolicy, c.LivenessProbe)) =
        [ ((controllerBaseContainer X repo controllerImage tag verbosity pullPolicy).Name,
           (controllerBaseContainer X repo controllerImage tag verbosity pullPolicy).Image,
           (controllerBaseContainer X repo controllerImage tag verbosity pullPolicy).Command,
           (controllerBaseContainer X repo controllerImage tag verbosity pullPolicy).Args,
           (controllerBaseContainer X repo controllerImage tag verbosity pullPolicy).WorkingDir,
           (controllerBaseContainer X repo controllerImage tag verbosity pullPolicy).Ports,
           (controllerBaseContainer X repo controllerImage tag verbosity
             pullPolicy).ImagePullPolicy,
           (controllerBaseContainer X repo controllerImage tag verbosity
             pullPolicy).LivenessProbe) ] ∧
      (createControllerDeployment X repo controllerImage importerImage clonerImage
          uploadServerImage tag verbosity pullPolicy).containers.map
            (fun c => c.withOverwritten
              (controllerBaseContainer X repo controllerImage tag verbosity pullPolicy).Env
              (controllerBaseContainer X repo controllerImage tag verbosity
                pullPolicy).ReadinessProbe
              (controllerBaseContainer X repo controllerImage tag verbosity
                pullPolicy).VolumeMounts) =
        [controllerBaseContainer X repo controllerImage tag verbosity pullPolicy] ∧
      (createControllerDeployment X repo controllerImage importerImage clonerImage
          uploadServerImage tag verbosity pullPolicy).TypeMeta =
        (controllerSkeleton X).TypeMeta ∧
      (createControllerDeployment X repo controllerImage importerImage clonerImage
          uploadServerImage tag verbosity pullPolicy).ObjectMeta =
        (controllerSkeleton X).ObjectMeta ∧
      (createControllerDeployment X repo controllerImage importerImage clonerImage
          uploadServerImage tag verbosity pullPolicy).Spec.Replicas =
        (controllerSkeleton X).Spec.Replicas ∧
      (createControllerDeployment X repo controllerImage importerImage clonerImage
          uploadServerImage tag verbosity pullPolicy).Spec.Selector =
        (controllerSkeleton X).Spec.Selector ∧
      (createControllerDeployment X repo controllerImage importerImage clonerImage
          uploadServerImage tag verbosity pullPolicy).Spec.Template.ObjectMeta =
        (controllerSkeleton X).Spec.Template.ObjectMeta ∧
      (createControllerDeployment X repo controllerImage importerImage clonerImage
          uploadServerImage tag verbosity pullPolicy).Spec.Template.Spec.RestartPolicy =
        (controllerSkeleton X).Spec.Template.Spec.RestartPolicy ∧
      (createControllerDeployment X repo controllerImage importerImage clonerImage
          uploadServerImage tag verbosity pullPolicy).Spec.Template.Spec.NodeSelector =
        (controllerSkeleton X).Spec.Template.Spec.NodeSelector ∧
      (createControllerDeployment X repo controllerImage importerImage clonerImage
          uploadServerImage tag verbosity pullPolicy).Spec.Template.Spec.ServiceAccountName =
        (controllerSkeleton X).Spec.Template.Spec.ServiceAccountName ∧
      (createControllerDeployment X repo controllerImage importerImage clonerImage
          uploadServerImage tag verbosity pullPolicy).withPodLists
            (controllerSkeleton X).volumes (controllerSkeleton X).containers =
        controllerSkeleton X ∧
      (createControllerDeployment sampleExternals repo controllerImage importerImage
          clonerImage uploadServerImage tag verbosity pullPolicy).containers.map
            Container.LivenessProbe = [none] :=
  ⟨rfl, rfl, rfl, rfl, rfl, rfl, rfl, rfl, rfl, rfl, rfl, rfl, rfl⟩

end Namespaced
